import Mathlib

/-!
Verification of the probe-orchestration behaviour of the Perfmon scripts
(Perfmon_linux.py, Perfmon_AIX.py, Perfmon_macos.py).

The scripts are shallowly embedded: a shell command's behaviour is a value of
`CmdBehavior` (it either completes after some time with an exit code, stdout
and stderr, or it hangs forever); `subprocess.run` with `check=True` is the
function `subprocessRunPy`; a Python computation is a `PyResult`, carrying the
log lines it wrote (as structured `LogMsg` values at a `LogLevel`) together
with an `Outcome`: normal return, an uncaught exception (`PyExc`), or
divergence.  Each monitoring function of the scripts is translated into this
model, and the scheduler loop, signal handling and the AIX thread fork/join
are modelled separately.
-/

/-- Severity of a Python `logging` call. -/
inductive LogLevel
  | info
  | warning
  | error
deriving DecidableEq, Repr

/-- Structured rendering of the distinct log messages the scripts emit.
Free-text messages keep their literal string; messages with data carry it. -/
inductive LogMsg
  | text (s : String)
  | cmdOutput (out : String)
  | cmdFailed (cmd : String) (code : Nat)
  | cmdFailedStderr (cmd : String) (stderr : String)
  | cmdTimedOut (cmd : String) (t : Nat)
  | noneValue
  | cpuUsage (v : ℚ)
  | gauge (label : String) (v : ℚ)
  | alertCpuHigh (v : ℚ)
  | alertMemHigh (v : ℚ)
  | diskDevice (device : String)
  | permissionDeniedFor (mountpoint : String)
  | highCpuProcess (pid : Nat) (name : String) (cpu mem : ℚ)
  | accessDenied (pid : Nat)
  | nfsstatNotFound
  | nfsMountList (lines : List String)
  | collectingDisk (disk : String)
  | receivedSignal (signum : Nat)
deriving DecidableEq, Repr

/-- A Python log entry: a level and a message. -/
abbrev LogEntry := LogLevel × LogMsg

/-- The Python exceptions relevant to the scripts. -/
inductive PyExc
  | calledProcessError (code : Nat) (cmd : String) (stderr : String)
  | timeoutExpired (cmd : String) (t : Nat)
  | indexError
  | systemExit (code : Nat)
deriving DecidableEq, Repr

/-- How a Python computation ends: normal return, uncaught exception, or it
never returns at all (e.g. blocked on a subprocess with no timeout). -/
inductive Outcome (α : Type)
  | ok (a : α)
  | exc (e : PyExc)
  | diverge
deriving DecidableEq, Repr

/-- A Python computation's observable result: the log lines written (in
order), and how it ended. -/
structure PyResult (α : Type) where
  logs : List LogEntry
  out : Outcome α
deriving DecidableEq, Repr

/-- Sequencing: logs accumulate; an exception or divergence cuts the rest. -/
def PyResult.bind (r : PyResult α) (f : α → PyResult β) : PyResult β :=
  match r with
  | ⟨l, .ok a⟩ => ⟨l ++ (f a).logs, (f a).out⟩
  | ⟨l, .exc e⟩ => ⟨l, .exc e⟩
  | ⟨l, .diverge⟩ => ⟨l, .diverge⟩

/-- A computation that only returns. -/
def pyUnit : PyResult Unit := ⟨[], .ok ()⟩

/-- Sequencing of two statements. -/
def pySeq (a b : PyResult Unit) : PyResult Unit := a.bind fun _ => b

/-- Sequencing of a list of statements. -/
def pyAll (l : List (PyResult Unit)) : PyResult Unit := l.foldr pySeq pyUnit

/-- `logging.info`. -/
def logI (m : LogMsg) : PyResult Unit := ⟨[(.info, m)], .ok ()⟩

/-- `logging.warning`. -/
def logW (m : LogMsg) : PyResult Unit := ⟨[(.warning, m)], .ok ()⟩

/-- `logging.error`. -/
def logE (m : LogMsg) : PyResult Unit := ⟨[(.error, m)], .ok ()⟩

/-- A `try` block: the handler maps an exception either to the replacement
computation of a matching `except` clause, or to `none` (not caught). -/
def pyTry (r : PyResult α) (handler : PyExc → Option (PyResult α)) :
    PyResult α :=
  match r.out with
  | .exc e =>
      match handler e with
      | some h => ⟨r.logs ++ h.logs, h.out⟩
      | none => r
  | _ => r

/-- Behaviour of the external command a probe runs: it either completes after
`time` seconds with an exit code and output, or it never completes. -/
inductive CmdBehavior
  | completes (time : Nat) (exitCode : Nat) (stdout stderr : String)
  | hangs
deriving DecidableEq, Repr

/-- Whether a command behaviour eventually completes on its own. -/
def completesB : CmdBehavior → Bool
  | .completes _ _ _ _ => true
  | .hangs => false

/-- The stdout a completed command produced (a command that hangs produced
nothing observable). -/
def CmdBehavior.stdoutStr : CmdBehavior → String
  | .completes _ _ out _ => out
  | .hangs => ""

/-- `subprocess.run(cmd, shell=True, check=True, timeout=timeout)`:
exit 0 returns stdout and stderr; a non-zero exit raises
`CalledProcessError`; exceeding a configured timeout raises
`TimeoutExpired`; with no timeout a hanging command never returns. -/
def subprocessRunPy (cmd : String) (timeout : Option Nat) (b : CmdBehavior) :
    PyResult (String × String) :=
  match b with
  | .completes t code out err =>
      match timeout with
      | some T =>
          if T < t then ⟨[], .exc (.timeoutExpired cmd T)⟩
          else
            match code with
            | 0 => ⟨[], .ok (out, err)⟩
            | c + 1 => ⟨[], .exc (.calledProcessError (c + 1) cmd err)⟩
      | none =>
          match code with
          | 0 => ⟨[], .ok (out, err)⟩
          | c + 1 => ⟨[], .exc (.calledProcessError (c + 1) cmd err)⟩
  | .hangs =>
      match timeout with
      | some T => ⟨[], .exc (.timeoutExpired cmd T)⟩
      | none => ⟨[], .diverge⟩

/-- `subprocess.run(cmd, shell=True, stdout=PIPE)` without `check` and
without a timeout (Perfmon_AIX.py line 168): never raises on a non-zero
exit, returns whatever stdout was produced. -/
def runUnchecked (b : CmdBehavior) : PyResult String :=
  match b with
  | .completes _ _ out _ => ⟨[], .ok out⟩
  | .hangs => ⟨[], .diverge⟩

namespace Linux

/-- Module-level configuration constants of Perfmon_linux.py. -/
structure Config where
  cpuAlertThreshold : ℚ
  memoryAlertThreshold : ℚ
  runDuration : Nat
  checkInterval : Nat
deriving DecidableEq, Repr

/-- The literal constants at lines 84-87. -/
def defaults : Config := ⟨90, 90, 60, 10⟩

/-- `run_command` of Perfmon_linux.py (lines 104-110): no timeout is passed
to `subprocess.run`; only `CalledProcessError` is caught (logged at error
level); on success the decoded stdout is logged at info level. -/
def run_command (cmd : String) (b : CmdBehavior) : PyResult Unit :=
  pyTry
    ((subprocessRunPy cmd none b).bind fun so => logI (.cmdOutput so.1))
    (fun e =>
      match e with
      | .calledProcessError code c _ => some (logE (.cmdFailed c code))
      | _ => none)

/-- The `psutil.virtual_memory()` fields the script reads. -/
structure MemInfo where
  total : ℚ
  used : ℚ
  available : ℚ
  percent : ℚ
deriving DecidableEq, Repr

/-- The `psutil.swap_memory()` fields the script reads. -/
structure SwapInfo where
  total : ℚ
  used : ℚ
  free : ℚ
  sin : ℚ
  sout : ℚ
deriving DecidableEq, Repr

/-- The `psutil.net_io_counters()` fields the script reads. -/
structure NetCounters where
  bytesSent : ℚ
  bytesRecv : ℚ
deriving DecidableEq, Repr

/-- The `psutil.disk_usage` fields the script reads. -/
structure DiskUsage where
  total : ℚ
  used : ℚ
  free : ℚ
  percent : ℚ
deriving DecidableEq, Repr

/-- One entry of `psutil.disk_partitions()`: either its usage can be read,
or reading it raises `PermissionError` (caught at lines 145-146). -/
inductive Partition
  | mounted (device : String) (u : DiskUsage)
  | permissionDenied (mountpoint : String)
deriving DecidableEq, Repr

/-- One entry yielded by `psutil.process_iter` at line 169: the requested
info fields, or an `AccessDenied` for that pid (caught at lines 174-175). -/
inductive ProcItem
  | entry (pid : Nat) (name : String) (cpu mem : ℚ)
  | denied (pid : Nat)
deriving DecidableEq, Repr

/-- The state of the host Perfmon_linux.py observes: the behaviour of each
shell command, `shutil.which` availability, and the psutil readings. -/
structure Env where
  cmd : String → CmdBehavior
  which : String → Bool
  cpuPercent : ℚ
  memory : MemInfo
  partitions : List Partition
  net : NetCounters
  procs : List ProcItem
  swap : SwapInfo
  procMounts : Option (List String)

/-- `cpu_memory_stats` (lines 113-131): logs CPU/memory readings, then the
two threshold alerts (warning level, strict greater-than, lines 125-128),
then runs `cat /proc/stat | head -n 5`. -/
def cpu_memory_stats (cfg : Config) (env : Env) : PyResult Unit :=
  pySeq
    ⟨[(.info, .text "CPU and Memory Stats:"),
      (.info, .cpuUsage env.cpuPercent),
      (.info, .gauge "Total Memory" env.memory.total),
      (.info, .gauge "Used Memory" env.memory.used),
      (.info, .gauge "Available Memory" env.memory.available)] ++
     (if env.cpuPercent > cfg.cpuAlertThreshold then
        [(.warning, .alertCpuHigh env.cpuPercent)] else []) ++
     (if env.memory.percent > cfg.memoryAlertThreshold then
        [(.warning, .alertMemHigh env.memory.percent)] else []),
     .ok ()⟩
    (run_command "cat /proc/stat | head -n 5" (env.cmd "cat /proc/stat | head -n 5"))

/-- The log lines for one disk partition (lines 138-146). -/
def partitionLogs : Partition → List LogEntry
  | .mounted device u =>
      [(.info, .diskDevice device),
       (.info, .gauge "Total" u.total),
       (.info, .gauge "Used" u.used),
       (.info, .gauge "Free" u.free),
       (.info, .gauge "Percent Used" u.percent)]
  | .permissionDenied mp => [(.warning, .permissionDeniedFor mp)]

/-- `disk_stats` (lines 134-152): per-partition usages, then `iostat` if
available, else the `vmstat` fallback. -/
def disk_stats (env : Env) : PyResult Unit :=
  pySeq
    ⟨(.info, .text "Disk Usage Stats:") :: env.partitions.flatMap partitionLogs, .ok ()⟩
    (if env.which "iostat" then
      run_command "iostat -xm 1 5" (env.cmd "iostat -xm 1 5")
     else
      run_command "vmstat 1 5" (env.cmd "vmstat 1 5"))

/-- `network_stats` (lines 155-163). -/
def network_stats (env : Env) : PyResult Unit :=
  pySeq
    ⟨[(.info, .text "Network Stats:"),
      (.info, .gauge "Bytes Sent" env.net.bytesSent),
      (.info, .gauge "Bytes Received" env.net.bytesRecv)], .ok ()⟩
    (pySeq (run_command "netstat -i" (env.cmd "netstat -i"))
      (run_command "ss -s" (env.cmd "ss -s")))

/-- The log lines for one process entry (lines 169-175): a warning for a
process using strictly more than 50 percent CPU, nothing otherwise; a
warning for an `AccessDenied` process. -/
def procLogs : ProcItem → List LogEntry
  | .entry pid name cpu mem =>
      if cpu > 50 then [(.warning, .highCpuProcess pid name cpu mem)] else []
  | .denied pid => [(.warning, .accessDenied pid)]

/-- `process_stats` (lines 166-184).  The configuration is in scope as a
module constant but the body never reads it: the 50-percent cut-off is a
literal. -/
def process_stats (_cfg : Config) (env : Env) : PyResult Unit :=
  pySeq
    ⟨(.info, .text "Process Monitoring:") :: env.procs.flatMap procLogs, .ok ()⟩
    (pySeq (run_command "top -bn1" (env.cmd "top -bn1"))
      (pySeq (run_command "lsof" (env.cmd "lsof"))
        (run_command "pstree" (env.cmd "pstree"))))

/-- `paging_stats` (lines 187-197). -/
def paging_stats (env : Env) : PyResult Unit :=
  pySeq
    ⟨[(.info, .text "Paging and Swap Stats:"),
      (.info, .gauge "Total Swap" env.swap.total),
      (.info, .gauge "Used Swap" env.swap.used),
      (.info, .gauge "Free Swap" env.swap.free),
      (.info, .gauge "Swap In" env.swap.sin),
      (.info, .gauge "Swap Out" env.swap.sout)], .ok ()⟩
    (run_command "vmstat 1 5" (env.cmd "vmstat 1 5"))

/-- `filesystem_stats` (lines 200-204). -/
def filesystem_stats (env : Env) : PyResult Unit :=
  pySeq (logI (.text "Filesystem Stats:"))
    (pySeq (run_command "df -h" (env.cmd "df -h"))
      (pySeq (run_command "mount" (env.cmd "mount"))
        (run_command "du -sh /var" (env.cmd "du -sh /var"))))

/-- `nfs_stats` (lines 207-217): availability of `nfsstat` is pre-checked
with `shutil.which`; when absent, a single warning is logged.  The outer
`except CalledProcessError` clause is kept, though `run_command` already
catches that exception. -/
def nfs_stats (env : Env) : PyResult Unit :=
  pySeq (logI (.text "NFS Stats:"))
    (pyTry
      (if env.which "nfsstat" then
        pySeq (run_command "nfsstat -s" (env.cmd "nfsstat -s"))
          (run_command "nfsstat -c" (env.cmd "nfsstat -c"))
       else logW .nfsstatNotFound)
      (fun e =>
        match e with
        | .calledProcessError _ _ _ => some (logE (.text "Failed to get NFS stats"))
        | _ => none))

/-- Python's `"nfs" in line` substring test. -/
def containsNfs (l : String) : Bool := decide ((l.splitOn "nfs").length > 1)

/-- `check_nfs_mounts` (lines 220-230): reads `/proc/mounts` (modelled as
`none` when opening raises) and filters NFS lines; the bare
`except Exception` clause makes the function total. -/
def check_nfs_mounts (env : Env) : PyResult Unit :=
  ⟨(.info, .text "Checking active NFS mounts:") ::
    (match env.procMounts with
     | some lines =>
        let nfs := lines.filter containsNfs
        if nfs.isEmpty then [(.info, .text "No NFS mounts found.")]
        else [(.info, .nfsMountList nfs)]
     | none => [(.error, .text "Error checking NFS mounts")]),
   .ok ()⟩

/-- `log_monitoring` (lines 233-237). -/
def log_monitoring (env : Env) : PyResult Unit :=
  pySeq (logI (.text "System Logs:"))
    (pySeq (run_command "tail -n 50 /var/log/syslog" (env.cmd "tail -n 50 /var/log/syslog"))
      (run_command "tail -n 50 /var/log/messages" (env.cmd "tail -n 50 /var/log/messages")))

/-- `system_info` (lines 240-243). -/
def system_info (env : Env) : PyResult Unit :=
  pySeq (logI (.text "System Info:"))
    (pySeq (run_command "uname -a" (env.cmd "uname -a"))
      (run_command "lsb_release -a" (env.cmd "lsb_release -a")))

/-- The body of one iteration of the scheduler loop in `main`
(lines 255-266): the full collection cycle over the registered probes. -/
def cycleBody (cfg : Config) (env : Env) : PyResult Unit :=
  pyAll
    [logI (.text "Collecting system stats..."),
     cpu_memory_stats cfg env,
     disk_stats env,
     network_stats env,
     process_stats cfg env,
     paging_stats env,
     filesystem_stats env,
     nfs_stats env,
     check_nfs_mounts env,
     log_monitoring env]

/-- A host on which every shell command exits non-zero (exit code 1), no
command is found by `shutil.which`, and `/proc/mounts` cannot be opened. -/
def envAllFail : Env :=
  ⟨fun _ => .completes 0 1 "" "boom", fun _ => false, 0, ⟨0, 0, 0, 0⟩, [],
   ⟨0, 0⟩, [], ⟨0, 0, 0, 0, 0⟩, none⟩

/-- A host whose commands all succeed, used to instantiate the alert claims
at concrete CPU readings. -/
def testEnv (v : ℚ) : Env :=
  ⟨fun _ => .completes 0 0 "" "", fun _ => false, v, ⟨0, 0, 0, 0⟩, [],
   ⟨0, 0⟩, [], ⟨0, 0, 0, 0, 0⟩, none⟩

/-- All commands of a host complete on their own (none hangs forever). -/
def EnvCompletes (env : Env) : Prop :=
  ∀ c, completesB (env.cmd c) = true

end Linux

namespace AIX

/-- `run_command` of Perfmon_AIX.py (lines 109-120): a timeout is always
passed to `subprocess.run` (callers use the default 60 or an explicit value);
`TimeoutExpired` is caught and logged at warning level, `CalledProcessError`
at error level. -/
def run_command (cmd : String) (timeout : Nat) (b : CmdBehavior) :
    PyResult Unit :=
  pyTry
    ((subprocessRunPy cmd (some timeout) b).bind fun so => logI (.cmdOutput so.1))
    (fun e =>
      match e with
      | .timeoutExpired c t => some (logW (.cmdTimedOut c t))
      | .calledProcessError code c _ => some (logE (.cmdFailed c code))
      | _ => none)

/-- Hosts of Perfmon_AIX.py are described by the behaviour of each shell
command. -/
structure Env where
  cmd : String → CmdBehavior

/-- Split a character list at a separator (keeping empty pieces), by
structural recursion so that concrete instances evaluate. -/
def splitChars (sep : Char) : List Char → List (List Char)
  | [] => [[]]
  | c :: cs =>
      match splitChars sep cs with
      | [] => if c = sep then [[], []] else [[c]]
      | h :: t => if c = sep then [] :: h :: t else (c :: h) :: t

/-- Python `str.splitlines()`: split at newlines, with no trailing empty
line for a trailing newline; the empty string gives no lines. -/
def pySplitlines (s : String) : List String :=
  let parts := (splitChars '\n' s.data).map String.mk
  if parts.getLast? = some "" then parts.dropLast else parts

/-- Python `str.split()`: split at spaces, dropping empty fields. -/
def pySplit (s : String) : List String :=
  ((splitChars ' ' s.data).map String.mk).filter (fun t => t ≠ "")

/-- Python `l[0]`: raises `IndexError` on an empty list. -/
def pyIndex0 (l : List String) : PyResult String :=
  match l with
  | [] => ⟨[], .exc .indexError⟩
  | x :: _ => ⟨[], .ok x⟩

/-- `disk_stats` of Perfmon_AIX.py (lines 155-175): runs `lspv` through
`run_command`, then re-runs it unchecked to enumerate the disks, and for
each line's first token collects the disk's attributes (timeout 60) and its
I/O statistics (timeout 30). -/
def disk_stats (env : Env) : PyResult Unit :=
  pySeq (logI (.text "Collecting Disk Stats:"))
    (pySeq (run_command "lspv" 60 (env.cmd "lspv"))
      ((runUnchecked (env.cmd "lspv")).bind fun out =>
        pyAll ((pySplitlines out).map fun disk =>
          (pyIndex0 (pySplit disk)).bind fun dn =>
            pySeq (logI (.collectingDisk dn))
              (pySeq
                (run_command ("lsattr -El " ++ dn) 60 (env.cmd ("lsattr -El " ++ dn)))
                (run_command ("iostat -DlR " ++ dn ++ " 1 1") 30
                  (env.cmd ("iostat -DlR " ++ dn ++ " 1 1")))))))

/-- A host on which `lspv` reports two disks and every other command exits
non-zero. -/
def envTwoDisks : Env :=
  ⟨fun c =>
    if c = "lspv" then
      .completes 1 0 "hdisk0 0001 rootvg active\nhdisk1 0002 rootvg active\n" ""
    else .completes 1 2 "" "err"⟩

end AIX

namespace MacOS

/-- `run_command` of Perfmon_macos.py (lines 61-67): no timeout; on exit 0
return the decoded, stripped stdout; on `CalledProcessError` log the
command's stderr at error level and return `None`. -/
def run_command (cmd : String) (b : CmdBehavior) : PyResult (Option String) :=
  pyTry
    ((subprocessRunPy cmd none b).bind fun so => ⟨[], .ok (some so.1.trim)⟩)
    (fun e =>
      match e with
      | .calledProcessError _ c stderr => some ⟨[(.error, .cmdFailedStderr c stderr)], .ok none⟩
      | _ => none)

/-- `logging.info(x)` applied to the value `run_command` returned: the
callers' pattern `logging.info(run_command(c))`. -/
def logInfoValue (v : Option String) : PyResult Unit :=
  ⟨[(.info, match v with | some s => .text s | none => .noneValue)], .ok ()⟩

/-- The per-command caller pattern `logging.info(run_command(c))`. -/
def logCmd (cmd : String) (b : CmdBehavior) : PyResult Unit :=
  (run_command cmd b).bind logInfoValue

/-- Hosts of Perfmon_macos.py are described by the behaviour of each shell
command. -/
structure Env where
  cmd : String → CmdBehavior

/-- `filesystem_nfs_stats` of Perfmon_macos.py (lines 107-110): no
availability pre-check for `nfsstat`. -/
def filesystem_nfs_stats (env : Env) : PyResult Unit :=
  pySeq (logI (.text "Collecting filesystem and NFS stats..."))
    (pySeq (logCmd "mount" (env.cmd "mount"))
      (logCmd "nfsstat" (env.cmd "nfsstat")))

/-- A host where `nfsstat` does not exist (the shell reports exit status 127)
and every other command succeeds. -/
def testEnvNoNfsstat : Env :=
  ⟨fun c =>
    if c = "nfsstat" then .completes 0 127 "" "sh: nfsstat: command not found"
    else .completes 0 0 "ok" ""⟩

end MacOS

/-!
The call order of the three `main` functions, viewed as traces of
probe-function invocations.
-/

/-- The monitoring functions the three `main` loops call. -/
inductive ProbeCall
  | systemInfo
  | cpuMemory
  | disks
  | network
  | process
  | paging
  | filesystem
  | nfs
  | nfsMounts
  | logMon
  | errorLogs
  | volumeGroup
  | parallelDiskNet
deriving DecidableEq, Repr

/-- The calls of one iteration of the Perfmon_linux.py loop (lines 258-266). -/
def linuxCycleCalls : List ProbeCall :=
  [.cpuMemory, .disks, .network, .process, .paging, .filesystem, .nfs,
   .nfsMounts, .logMon]

/-- The calls of one iteration of the Perfmon_AIX.py loop (lines 305-313). -/
def aixCycleCalls : List ProbeCall :=
  [.parallelDiskNet, .cpuMemory, .volumeGroup, .process, .paging,
   .filesystem, .logMon]

/-- The calls of one iteration of the Perfmon_macos.py loop (lines 123-129):
`system_info` is called inside the loop body. -/
def macosCycleCalls : List ProbeCall :=
  [.systemInfo, .cpuMemory, .disks, .process, .network, .filesystem,
   .errorLogs]

/-- The trace of `n` iterations of a loop whose body makes the given calls. -/
def loopTrace (cycle : List ProbeCall) : Nat → List ProbeCall
  | 0 => []
  | n + 1 => cycle ++ loopTrace cycle n

/-- The calls `main` of Perfmon_linux.py makes over a run of `n` loop
iterations (lines 246-269): `system_info` once, before the loop. -/
def linuxMainTrace (n : Nat) : List ProbeCall :=
  ProbeCall.systemInfo :: loopTrace linuxCycleCalls n

/-- The calls `main` of Perfmon_AIX.py makes over a run of `n` loop
iterations (lines 293-316): `system_info` once, before the loop. -/
def aixMainTrace (n : Nat) : List ProbeCall :=
  ProbeCall.systemInfo :: loopTrace aixCycleCalls n

/-- The calls `main` of Perfmon_macos.py makes over a run of `n` loop
iterations (lines 118-132): there is no call before the loop. -/
def macosMainTrace (n : Nat) : List ProbeCall :=
  loopTrace macosCycleCalls n

/-!
Signal handling (Perfmon_linux.py lines 90-97, Perfmon_AIX.py lines
95-102): the handler logs, runs `cleanup()`, and calls `exit(1)`.
-/

/-- `cleanup` (Perfmon_linux.py lines 100-101). -/
def cleanup : PyResult Unit :=
  ⟨[(.info, .text "Cleaning up resources before exiting.")], .ok ()⟩

/-- `signal_handler` (Perfmon_linux.py lines 90-93): log the signal, run
`cleanup`, then `exit(1)` — which raises `SystemExit` and, nothing catching
it, terminates the process with status 1. -/
def signal_handler (signum : Nat) : PyResult Unit :=
  (logI (.receivedSignal signum)).bind fun _ =>
    cleanup.bind fun _ => ⟨[], .exc (.systemExit 1)⟩

/-- Execution of one cycle's probe list under an asynchronous shutdown
signal: `none` means no signal arrives; `some (k, signum)` means signal
`signum` is delivered after the first `k` probes have finished and before
the next one starts, at which point the registered `signal_handler` runs in
the main thread. -/
def runCycleUnderSignal (probes : List (PyResult Unit))
    (sig : Option (Nat × Nat)) : PyResult Unit :=
  match sig with
  | none => pyAll probes
  | some (k, signum) =>
      if k < probes.length then
        (pyAll (probes.take k)).bind fun _ => signal_handler signum
      else pyAll probes

/-- Two probes that only log, for instantiating the signal claims. -/
def demoProbes : List (PyResult Unit) :=
  [logI (.text "probe A"), logI (.text "probe B")]

/-!
The scheduler loop of all three scripts:
`start = now; while now - start < RUN_DURATION: cycle; sleep(CHECK_INTERVAL)`.
With the cycle body abstracted as instantaneous, elapsed time advances by
the interval at each iteration; `schedLoop I D elapsed` counts the
remaining iterations.
-/

/-- Number of loop iterations of the scheduler starting at the given elapsed
time, with interval `I` and total duration `D`.  The guard `0 < I` records
that each `sleep(I)` makes progress. -/
def schedLoop (I D elapsed : Nat) : Nat :=
  if h : 0 < I ∧ elapsed < D then 1 + schedLoop I D (elapsed + I) else 0
termination_by D - elapsed
decreasing_by omega

/-!
The AIX cycle's concurrency structure (Perfmon_AIX.py lines 274-316):
`parallel_tasks` starts a disk thread and a network thread, joins both, and
only then does `main` continue with the sequential probes.  A cycle is
modelled as a small-step system: the disk thread emits `dT` events, the
network thread `nT` events, in any interleaving; the main thread may emit
its `i`-th sequential event only once both joins have returned, i.e. both
threads have emitted everything.
-/

/-- An observable action of the AIX cycle. -/
inductive AixEvent
  | disk
  | network
  | seq (i : Nat)
deriving DecidableEq, Repr

/-- State of an in-flight AIX cycle: progress of each thread, of the
sequential section, and the trace so far. -/
structure AixCycleState where
  d : Nat
  n : Nat
  s : Nat
  trace : List AixEvent
deriving DecidableEq, Repr

/-- One step of the AIX cycle.  Thread steps are enabled while the thread
has work left; the first sequential step is enabled only when both
`thread.join()` calls have returned, i.e. `d = dT` and `n = nT`. -/
inductive AixCycleStep (dT nT sT : Nat) : AixCycleState → AixCycleState → Prop
  | disk (d n s tr) : d < dT →
      AixCycleStep dT nT sT ⟨d, n, s, tr⟩ ⟨d + 1, n, s, tr ++ [AixEvent.disk]⟩
  | network (d n s tr) : n < nT →
      AixCycleStep dT nT sT ⟨d, n, s, tr⟩ ⟨d, n + 1, s, tr ++ [AixEvent.network]⟩
  | seqProbe (d n s tr) : d = dT → n = nT → s < sT →
      AixCycleStep dT nT sT ⟨d, n, s, tr⟩ ⟨d, n, s + 1, tr ++ [AixEvent.seq s]⟩

/-- Reachability from the start of the cycle. -/
def AixCycleReach (dT nT sT : Nat) (st : AixCycleState) : Prop :=
  Relation.ReflTransGen (AixCycleStep dT nT sT) ⟨0, 0, 0, []⟩ st

/-- Concurrent-thread events. -/
def isConc : AixEvent → Bool
  | .disk => true
  | .network => true
  | .seq _ => false

/-- Checks that after its maximal prefix of concurrent-thread events a trace
consists exactly of the sequential events `seq 0, …, seq (sT-1)` in
registration order. -/
def concThenSeqChk (sT : Nat) (tr : List AixEvent) : Bool :=
  decide (tr.dropWhile isConc = (List.range sT).map AixEvent.seq)

/-!
Helper lemmas about the execution model.
-/

theorem PyResult.bind_of_ok {α β : Type} {r : PyResult α} {a : α}
    (f : α → PyResult β) (h : r.out = .ok a) :
    r.bind f = ⟨r.logs ++ (f a).logs, (f a).out⟩ := by
  obtain ⟨l, o⟩ := r
  cases o with
  | ok b =>
      simp only [Outcome.ok.injEq] at h
      subst h
      rfl
  | exc e => simp at h
  | diverge => simp at h

theorem pySeq_of_ok {a b : PyResult Unit} (h : a.out = .ok ()) :
    pySeq a b = ⟨a.logs ++ b.logs, b.out⟩ := by
  unfold pySeq
  rw [PyResult.bind_of_ok _ h]

theorem pySeq_out_ok {a b : PyResult Unit} (ha : a.out = .ok ())
    (hb : b.out = .ok ()) : (pySeq a b).out = .ok () := by
  rw [pySeq_of_ok ha, hb]

theorem mem_pySeq_logs {p : LogEntry} {a b : PyResult Unit}
    (h : p ∈ (pySeq a b).logs) : p ∈ a.logs ∨ p ∈ b.logs := by
  obtain ⟨l, o⟩ := a
  cases o with
  | ok u =>
      cases u
      rw [pySeq_of_ok rfl] at h
      simpa using List.mem_append.mp h
  | exc e => exact Or.inl h
  | diverge => exact Or.inl h

theorem pyAll_out_ok {l : List (PyResult Unit)} :
    (pyAll l).out = .ok () ↔ ∀ r ∈ l, r.out = .ok () := by
  induction l with
  | nil => simp [pyAll, pyUnit]
  | cons a t ih =>
      constructor
      · intro h
        have hstep : (pySeq a (pyAll t)).out = .ok () := h
        obtain ⟨la, oa⟩ := a
        cases oa with
        | ok u =>
            cases u
            rw [pySeq_of_ok rfl] at hstep
            intro r hr
            rcases List.mem_cons.mp hr with h1 | h2
            · subst h1; rfl
            · exact (ih.mp hstep) r h2
        | exc e => simp [pySeq, PyResult.bind] at hstep
        | diverge => simp [pySeq, PyResult.bind] at hstep
      · intro h
        have ha : a.out = .ok () := h a (List.mem_cons_self a t)
        have ht : (pyAll t).out = .ok () :=
          ih.mpr fun r hr => h r (List.mem_cons_of_mem a hr)
        exact pySeq_out_ok ha ht

theorem mem_pyAll_logs {p : LogEntry} {l : List (PyResult Unit)}
    (h : p ∈ (pyAll l).logs) : ∃ r ∈ l, p ∈ r.logs := by
  induction l with
  | nil => simp [pyAll, pyUnit] at h
  | cons a t ih =>
      rcases mem_pySeq_logs h with h1 | h2
      · exact ⟨a, List.mem_cons_self a t, h1⟩
      · obtain ⟨r, hr, hp⟩ := ih h2
        exact ⟨r, List.mem_cons_of_mem a hr, hp⟩

theorem pyTry_of_ok {α : Type} {r : PyResult α} {a : α}
    (handler : PyExc → Option (PyResult α)) (h : r.out = .ok a) :
    pyTry r handler = r := by
  unfold pyTry
  rw [h]

/-!
Shape lemmas for the three `run_command` embeddings.
-/

theorem Linux.run_command_exit_zero (cmd : String) (t : Nat) (out err : String) :
    Linux.run_command cmd (.completes t 0 out err) =
      ⟨[(.info, .cmdOutput out)], .ok ()⟩ := rfl

theorem Linux.run_command_nonzero (cmd : String) (t c : Nat) (out err : String) :
    Linux.run_command cmd (.completes t (c + 1) out err) =
      ⟨[(.error, .cmdFailed cmd (c + 1))], .ok ()⟩ := rfl

theorem Linux.run_command_hangs (cmd : String) :
    Linux.run_command cmd .hangs = ⟨[], .diverge⟩ := rfl

theorem Linux.run_command_returns {cmd : String} {b : CmdBehavior}
    (h : completesB b = true) : (Linux.run_command cmd b).out = .ok () := by
  cases b with
  | completes t code out err =>
      cases code with
      | zero => rw [Linux.run_command_exit_zero]
      | succ c => rw [Linux.run_command_nonzero]
  | hangs => simp [completesB] at h

theorem Linux.run_command_logs_shape {p : LogEntry} {cmd : String}
    {b : CmdBehavior} (h : p ∈ (Linux.run_command cmd b).logs) :
    (∃ s, p = (.info, .cmdOutput s)) ∨ ∃ c, p = (.error, .cmdFailed cmd c) := by
  cases b with
  | completes t code out err =>
      cases code with
      | zero =>
          rw [Linux.run_command_exit_zero] at h
          simp at h
          exact Or.inl ⟨out, h⟩
      | succ c =>
          rw [Linux.run_command_nonzero] at h
          simp at h
          exact Or.inr ⟨c + 1, h⟩
  | hangs => simp [Linux.run_command_hangs] at h

theorem AIX.run_command_total (cmd : String) (T : Nat) (b : CmdBehavior) :
    (AIX.run_command cmd T b).out = .ok () := by
  cases b with
  | completes t code out err =>
      by_cases h : T < t
      · simp [AIX.run_command, subprocessRunPy, h, PyResult.bind, pyTry, logW]
      · cases code with
        | zero =>
            simp [AIX.run_command, subprocessRunPy, h, PyResult.bind, pyTry, logI]
        | succ c =>
            simp [AIX.run_command, subprocessRunPy, h, PyResult.bind, pyTry, logE]
  | hangs => rfl

theorem AIX.run_command_timeout_completes (cmd : String) (T d code : Nat)
    (out err : String) :
    AIX.run_command cmd T (.completes (T + 1 + d) code out err) =
      ⟨[(.warning, .cmdTimedOut cmd T)], .ok ()⟩ := by
  have h : T < T + 1 + d := by omega
  simp [AIX.run_command, subprocessRunPy, h, PyResult.bind, pyTry, logW]

theorem AIX.run_command_timeout_hangs (cmd : String) (T : Nat) :
    AIX.run_command cmd T .hangs =
      ⟨[(.warning, .cmdTimedOut cmd T)], .ok ()⟩ := rfl

theorem MacOS.run_command_mac_exit_zero (cmd : String) (t : Nat) (out err : String) :
    MacOS.run_command cmd (.completes t 0 out err) =
      ⟨[], .ok (some out.trim)⟩ := rfl

theorem MacOS.run_command_mac_nonzero (cmd : String) (t c : Nat) (out err : String) :
    MacOS.run_command cmd (.completes t (c + 1) out err) =
      ⟨[(.error, .cmdFailedStderr cmd err)], .ok none⟩ := rfl

/-!
Each Linux probe returns normally whenever the commands it runs complete;
together these give claim C1's cycle-level guarantee.
-/

theorem Linux.cpu_memory_stats_out_ok (cfg : Linux.Config) {env : Linux.Env}
    (h : Linux.EnvCompletes env) :
    (Linux.cpu_memory_stats cfg env).out = .ok () :=
  pySeq_out_ok rfl (Linux.run_command_returns (h _))

theorem Linux.disk_stats_out_ok {env : Linux.Env}
    (h : Linux.EnvCompletes env) : (Linux.disk_stats env).out = .ok () := by
  unfold Linux.disk_stats
  by_cases hw : env.which "iostat"
  · rw [if_pos hw]
    exact pySeq_out_ok rfl (Linux.run_command_returns (h _))
  · rw [if_neg hw]
    exact pySeq_out_ok rfl (Linux.run_command_returns (h _))

theorem Linux.network_stats_out_ok {env : Linux.Env}
    (h : Linux.EnvCompletes env) : (Linux.network_stats env).out = .ok () :=
  pySeq_out_ok rfl
    (pySeq_out_ok (Linux.run_command_returns (h _)) (Linux.run_command_returns (h _)))

theorem Linux.process_stats_out_ok (cfg : Linux.Config) {env : Linux.Env}
    (h : Linux.EnvCompletes env) :
    (Linux.process_stats cfg env).out = .ok () :=
  pySeq_out_ok rfl
    (pySeq_out_ok (Linux.run_command_returns (h _))
      (pySeq_out_ok (Linux.run_command_returns (h _))
        (Linux.run_command_returns (h _))))

theorem Linux.paging_stats_out_ok {env : Linux.Env}
    (h : Linux.EnvCompletes env) : (Linux.paging_stats env).out = .ok () :=
  pySeq_out_ok rfl (Linux.run_command_returns (h _))

theorem Linux.filesystem_stats_out_ok {env : Linux.Env}
    (h : Linux.EnvCompletes env) : (Linux.filesystem_stats env).out = .ok () :=
  pySeq_out_ok rfl
    (pySeq_out_ok (Linux.run_command_returns (h _))
      (pySeq_out_ok (Linux.run_command_returns (h _))
        (Linux.run_command_returns (h _))))

theorem Linux.nfs_stats_out_ok {env : Linux.Env}
    (h : Linux.EnvCompletes env) : (Linux.nfs_stats env).out = .ok () := by
  unfold Linux.nfs_stats
  apply pySeq_out_ok rfl
  by_cases hw : env.which "nfsstat"
  · rw [if_pos hw]
    have hb : (pySeq (Linux.run_command "nfsstat -s" (env.cmd "nfsstat -s"))
        (Linux.run_command "nfsstat -c" (env.cmd "nfsstat -c"))).out = .ok () :=
      pySeq_out_ok (Linux.run_command_returns (h _)) (Linux.run_command_returns (h _))
    rw [pyTry_of_ok _ hb]
    exact hb
  · rw [if_neg hw]
    rfl

theorem Linux.check_nfs_mounts_out_ok (env : Linux.Env) :
    (Linux.check_nfs_mounts env).out = .ok () := rfl

theorem Linux.log_monitoring_out_ok {env : Linux.Env}
    (h : Linux.EnvCompletes env) : (Linux.log_monitoring env).out = .ok () :=
  pySeq_out_ok rfl
    (pySeq_out_ok (Linux.run_command_returns (h _)) (Linux.run_command_returns (h _)))

theorem Linux.cycleBody_out_ok (cfg : Linux.Config) {env : Linux.Env}
    (h : Linux.EnvCompletes env) : (Linux.cycleBody cfg env).out = .ok () := by
  unfold Linux.cycleBody
  apply pyAll_out_ok.mpr
  intro r hr
  fin_cases hr
  · rfl
  · exact Linux.cpu_memory_stats_out_ok cfg h
  · exact Linux.disk_stats_out_ok h
  · exact Linux.network_stats_out_ok h
  · exact Linux.process_stats_out_ok cfg h
  · exact Linux.paging_stats_out_ok h
  · exact Linux.filesystem_stats_out_ok h
  · exact Linux.nfs_stats_out_ok h
  · exact Linux.check_nfs_mounts_out_ok env
  · exact Linux.log_monitoring_out_ok h

theorem AIX.disk_stats_returns {env : AIX.Env}
    (h1 : completesB (env.cmd "lspv") = true)
    (h2 : ∀ l ∈ pySplitlines (env.cmd "lspv").stdoutStr, pySplit l ≠ []) :
    (AIX.disk_stats env).out = .ok () := by
  unfold AIX.disk_stats
  apply pySeq_out_ok rfl
  apply pySeq_out_ok (AIX.run_command_total _ _ _)
  cases hb : env.cmd "lspv" with
  | hangs => rw [hb] at h1; simp [completesB] at h1
  | completes t code out err =>
      rw [hb] at h2
      have hout : (runUnchecked (CmdBehavior.completes t code out err)).out =
          .ok out := rfl
      rw [PyResult.bind_of_ok _ hout]
      show (pyAll _).out = _
      apply pyAll_out_ok.mpr
      intro r hr
      obtain ⟨disk, hd, hfr⟩ := List.mem_map.mp hr
      have hne : pySplit disk ≠ [] := h2 disk hd
      subst hfr
      cases hsp : pySplit disk with
      | nil => exact absurd hsp hne
      | cons x xs =>
          have hidx : (pyIndex0 (x :: xs)).out = .ok x := rfl
          rw [PyResult.bind_of_ok _ hidx]
          exact pySeq_out_ok rfl
            (pySeq_out_ok (AIX.run_command_total _ _ _) (AIX.run_command_total _ _ _))

/-!
The macOS caller pattern `logging.info(run_command(c))`.
-/

theorem MacOS.logCmd_success (cmd : String) (t : Nat) (out err : String) :
    MacOS.logCmd cmd (.completes t 0 out err) =
      ⟨[(.info, .text out.trim)], .ok ()⟩ := rfl

theorem MacOS.logCmd_failure (cmd : String) (t c : Nat) (out err : String) :
    MacOS.logCmd cmd (.completes t (c + 1) out err) =
      ⟨[(.error, .cmdFailedStderr cmd err), (.info, .noneValue)], .ok ()⟩ := rfl

/-!
Membership characterizations of the two threshold decisions.
-/

theorem Linux.cpu_alert_mem_iff (cfg : Linux.Config) (env : Linux.Env) (w : ℚ) :
    (LogLevel.warning, LogMsg.alertCpuHigh w) ∈ (Linux.cpu_memory_stats cfg env).logs ↔
      w = env.cpuPercent ∧ env.cpuPercent > cfg.cpuAlertThreshold := by
  unfold Linux.cpu_memory_stats
  rw [pySeq_of_ok rfl]
  constructor
  · intro hmem
    rcases List.mem_append.mp hmem with hin | hin
    · by_cases hc : env.cpuPercent > cfg.cpuAlertThreshold <;>
        by_cases hm : env.memory.percent > cfg.memoryAlertThreshold <;>
        simp [hc, hm] at hin <;>
        exact ⟨hin, hc⟩
    · rcases Linux.run_command_logs_shape hin with ⟨s, hs⟩ | ⟨c, hc⟩
      · simp at hs
      · simp at hc
  · rintro ⟨rfl, hgt⟩
    apply List.mem_append.mpr
    left
    simp [hgt]

theorem Linux.process_stats_indep (cfg cfg' : Linux.Config) (env : Linux.Env) :
    Linux.process_stats cfg env = Linux.process_stats cfg' env := rfl

theorem Linux.high_cpu_mem_iff (cfg : Linux.Config) (env : Linux.Env)
    (p : Nat) (n : String) (c m : ℚ) :
    (LogLevel.warning, LogMsg.highCpuProcess p n c m) ∈
        (Linux.process_stats cfg env).logs ↔
      Linux.ProcItem.entry p n c m ∈ env.procs ∧ c > 50 := by
  unfold Linux.process_stats
  rw [pySeq_of_ok rfl]
  constructor
  · intro hmem
    rcases List.mem_append.mp hmem with hin | hin
    · rcases List.mem_cons.mp hin with heq | hin
      · simp at heq
      · obtain ⟨it, hit, hmem2⟩ := List.mem_flatMap.mp hin
        cases it with
        | entry p' n' c' m' =>
            by_cases hc : c' > 50
            · simp [Linux.procLogs, hc] at hmem2
              obtain ⟨h1, h2, h3, h4⟩ := hmem2
              subst h1; subst h2; subst h3; subst h4
              exact ⟨hit, hc⟩
            · simp [Linux.procLogs, hc] at hmem2
        | denied pid => simp [Linux.procLogs] at hmem2
    · rcases mem_pySeq_logs hin with h1 | h2
      · rcases Linux.run_command_logs_shape h1 with ⟨s, hs⟩ | ⟨cc, hcc⟩
        · simp at hs
        · simp at hcc
      · rcases mem_pySeq_logs h2 with h3 | h4
        · rcases Linux.run_command_logs_shape h3 with ⟨s, hs⟩ | ⟨cc, hcc⟩
          · simp at hs
          · simp at hcc
        · rcases Linux.run_command_logs_shape h4 with ⟨s, hs⟩ | ⟨cc, hcc⟩
          · simp at hs
          · simp at hcc
  · rintro ⟨hit, hc⟩
    apply List.mem_append.mpr
    left
    apply List.mem_cons_of_mem
    apply List.mem_flatMap.mpr
    exact ⟨Linux.ProcItem.entry p n c m, hit, by simp [Linux.procLogs, hc]⟩

/-!
Scheduler-loop arithmetic.
-/

theorem schedLoop_closed (I : Nat) (hI : 0 < I) :
    ∀ m D elapsed, D - elapsed ≤ m →
      schedLoop I D elapsed = (D - elapsed + (I - 1)) / I := by
  intro m
  induction m with
  | zero =>
      intro D e he
      rw [schedLoop, dif_neg (by omega : ¬(0 < I ∧ e < D))]
      have h0 : D - e = 0 := by omega
      rw [h0, Nat.zero_add]
      exact (Nat.div_eq_of_lt (by omega)).symm
  | succ m ih =>
      intro D e he
      by_cases hc : e < D
      · rw [schedLoop, dif_pos ⟨hI, hc⟩, ih D (e + I) (by omega)]
        have hrw : D - e + (I - 1) = (D - e - 1) + I := by omega
        rw [hrw, Nat.add_div_right _ hI]
        have h2 : (D - (e + I) + (I - 1)) / I = (D - e - 1) / I := by
          rcases le_or_lt I (D - e) with hle | hlt
          · congr 1
            omega
          · rw [Nat.div_eq_of_lt (by omega), Nat.div_eq_of_lt (by omega)]
        rw [h2, Nat.add_comm]
      · rw [schedLoop, dif_neg (by omega : ¬(0 < I ∧ e < D))]
        have h0 : D - e = 0 := by omega
        rw [h0, Nat.zero_add]
        exact (Nat.div_eq_of_lt (by omega)).symm

theorem schedLoop_count (I D : Nat) (hI : 0 < I) :
    schedLoop I D 0 = (D + (I - 1)) / I := by
  have h := schedLoop_closed I hI (D - 0) D 0 (Nat.le_refl _)
  simpa using h

theorem schedLoop_bounds (I D : Nat) (hI : 0 < I) :
    D / I ≤ schedLoop I D 0 ∧ schedLoop I D 0 ≤ D / I + 1 := by
  rw [schedLoop_count I D hI]
  constructor
  · exact Nat.div_le_div_right (by omega)
  · calc (D + (I - 1)) / I ≤ (D + I) / I := Nat.div_le_div_right (by omega)
      _ = D / I + 1 := Nat.add_div_right _ hI

/-!
Signal-handling behaviour of a cycle.
-/

theorem runCycleUnderSignal_aborts (probes : List (PyResult Unit)) (k s : Nat)
    (hk : k < probes.length) (hok : ∀ r ∈ probes, r.out = .ok ()) :
    runCycleUnderSignal probes (some (k, s)) =
      ⟨(pyAll (probes.take k)).logs ++
        [(.info, .receivedSignal s),
         (.info, .text "Cleaning up resources before exiting.")],
       .exc (.systemExit 1)⟩ := by
  show (if k < probes.length then
      (pyAll (probes.take k)).bind fun _ => signal_handler s
    else pyAll probes) = _
  rw [if_pos hk]
  have hko : (pyAll (probes.take k)).out = .ok () :=
    pyAll_out_ok.mpr fun r hr => hok r (List.take_subset k probes hr)
  rw [PyResult.bind_of_ok _ hko]
  rfl

/-!
Counting probe calls in the loop traces.
-/

theorem loopTrace_count (cycle : List ProbeCall) (x : ProbeCall) (n : Nat) :
    (loopTrace cycle n).count x = n * cycle.count x := by
  induction n with
  | zero => simp [loopTrace]
  | succ n ih =>
      simp only [loopTrace, List.count_append, ih, Nat.succ_mul]
      omega

/-!
Invariant of the AIX cycle's step system: the trace is always a block of
concurrent-thread events followed by the sequential events emitted so far in
order, and the sequential section is entered only after both joins.
-/

def aixTraceInv (dT nT : Nat) (st : AixCycleState) : Prop :=
  ∃ c, st.trace = c ++ (List.range st.s).map AixEvent.seq ∧
    (∀ e ∈ c, isConc e = true) ∧
    (0 < st.s → st.d = dT ∧ st.n = nT)

theorem aixReach_inv {dT nT sT : Nat} {st : AixCycleState}
    (h : AixCycleReach dT nT sT st) : aixTraceInv dT nT st := by
  induction h with
  | refl => exact ⟨[], rfl, by simp, by simp⟩
  | tail hreach hstep ih =>
      cases hstep with
      | disk d n s tr hd =>
          obtain ⟨c, htr, hconc, hs⟩ := ih
          have hs0 : s = 0 := by
            rcases Nat.eq_zero_or_pos s with h0 | hpos
            · exact h0
            · have hdd : d = dT := (hs hpos).1
              omega
          subst hs0
          simp only [List.range_zero, List.map_nil, List.append_nil] at htr
          refine ⟨c ++ [AixEvent.disk], ?_, ?_, by simp⟩
          · simp [htr]
          · intro e he
            rcases List.mem_append.mp he with h1 | h1
            · exact hconc e h1
            · simp only [List.mem_singleton] at h1
              subst h1
              rfl
      | network d n s tr hn =>
          obtain ⟨c, htr, hconc, hs⟩ := ih
          have hs0 : s = 0 := by
            rcases Nat.eq_zero_or_pos s with h0 | hpos
            · exact h0
            · have hnn : n = nT := (hs hpos).2
              omega
          subst hs0
          simp only [List.range_zero, List.map_nil, List.append_nil] at htr
          refine ⟨c ++ [AixEvent.network], ?_, ?_, by simp⟩
          · simp [htr]
          · intro e he
            rcases List.mem_append.mp he with h1 | h1
            · exact hconc e h1
            · simp only [List.mem_singleton] at h1
              subst h1
              rfl
      | seqProbe d n s tr hdT hnT hsS =>
          obtain ⟨c, htr, hconc, hs⟩ := ih
          have htr2 : tr = c ++ (List.range s).map AixEvent.seq := htr
          refine ⟨c, ?_, hconc, fun _ => ⟨hdT, hnT⟩⟩
          show tr ++ [AixEvent.seq s] = c ++ (List.range (s + 1)).map AixEvent.seq
          rw [List.range_succ, List.map_append, htr2, List.append_assoc]
          rfl

theorem dropWhile_conc_append (c : List AixEvent)
    (hc : ∀ e ∈ c, isConc e = true) (sT : Nat) :
    (c ++ (List.range sT).map AixEvent.seq).dropWhile isConc =
      (List.range sT).map AixEvent.seq := by
  induction c with
  | nil =>
      cases sT with
      | zero => rfl
      | succ m =>
          rw [List.range_succ_eq_map]
          simp [List.dropWhile_cons, isConc]
  | cons a c ih =>
      have ha : isConc a = true := hc a (List.mem_cons_self a c)
      simp only [List.cons_append, List.dropWhile_cons, ha, if_true]
      exact ih fun e he => hc e (List.mem_cons_of_mem a he)

/-- All probes of a cycle return normally. -/
def allOkProbes (l : List (PyResult Unit)) : Prop := ∀ r ∈ l, r.out = .ok ()

/-- Every line of the `lspv` enumeration has at least one whitespace-separated
token (as real `lspv` output does; a failed `lspv` yields no lines at all). -/
def AIX.lspvTokenized (env : AIX.Env) : Prop :=
  ∀ l ∈ AIX.pySplitlines (env.cmd "lspv").stdoutStr, AIX.pySplit l ≠ []

/-- C1: a collection cycle always returns normally — a probe command that
exits non-zero is caught inside `run_command` and logged as error data, and
no exception from a probe command invocation escapes the cycle body to the
scheduler loop, however many commands fail.  Stated for the full Linux cycle
(over any host whose commands complete), for the AIX `run_command` (total
over every command behaviour, timeouts included), and for the cited AIX
`disk_stats` enumeration loop. -/
theorem C1_cycle_executor_total :
    (∀ (cfg : Linux.Config) (env : Linux.Env), Linux.EnvCompletes env →
        (Linux.cycleBody cfg env).out = .ok ()) ∧
    (∀ (cmd : String) (T : Nat) (b : CmdBehavior),
        (AIX.run_command cmd T b).out = .ok ()) ∧
    (∀ env : AIX.Env, completesB (env.cmd "lspv") = true →
        AIX.lspvTokenized env → (AIX.disk_stats env).out = .ok ()) :=
  ⟨fun cfg _ h => Linux.cycleBody_out_ok cfg h,
   AIX.run_command_total,
   fun _ h1 h2 => AIX.disk_stats_returns h1 h2⟩

/-- Witness for C1: on a host where every command fails (exit 1) the Linux
cycle still returns normally, and `disk_stats` returns normally on an AIX
host with two disks where every other command fails. -/
theorem C1_cycle_executor_total_witness :
    Linux.EnvCompletes Linux.envAllFail ∧
    (Linux.cycleBody Linux.defaults Linux.envAllFail).out = .ok () ∧
    completesB (AIX.envTwoDisks.cmd "lspv") = true ∧
    AIX.lspvTokenized AIX.envTwoDisks ∧
    (AIX.disk_stats AIX.envTwoDisks).out = .ok () := by
  have hec : Linux.EnvCompletes Linux.envAllFail := fun _ => rfl
  have htok : AIX.lspvTokenized AIX.envTwoDisks := by
    have h : ∀ l ∈ AIX.pySplitlines (AIX.envTwoDisks.cmd "lspv").stdoutStr,
        AIX.pySplit l ≠ [] := by decide
    exact h
  exact ⟨hec, (C1_cycle_executor_total.1 Linux.defaults Linux.envAllFail hec),
    by decide, htok,
    C1_cycle_executor_total.2.2 AIX.envTwoDisks (by decide) htok⟩

/-- C2 (counterexample): the claim says every probe command execution is
bounded by a timeout, with a TimedOut outcome when exceeded.  But the Linux
and macOS `run_command` pass no timeout to `subprocess.run`: a probe command
that never completes makes the invocation diverge — no TimedOut outcome, no
log entry at all. -/
theorem C2_no_timeout_counterexample :
    Linux.run_command "lsof" CmdBehavior.hangs = ⟨[], .diverge⟩ ∧
    MacOS.run_command "nfsstat" CmdBehavior.hangs = ⟨[], .diverge⟩ :=
  ⟨rfl, rfl⟩

/-- C2 (amended): only the AIX script enforces a timeout: its `run_command`
passes one to every subprocess call, and a command exceeding it (or hanging)
yields exactly a warning-level timed-out log with no output emitted and no
exception; the Linux and macOS `run_command` pass no timeout, so a hanging
command blocks the probe forever. -/
theorem C2_timeout_only_aix :
    (∀ (cmd : String) (T d code : Nat) (out err : String),
        AIX.run_command cmd T (.completes (T + 1 + d) code out err) =
          ⟨[(.warning, .cmdTimedOut cmd T)], .ok ()⟩) ∧
    (∀ (cmd : String) (T : Nat),
        AIX.run_command cmd T .hangs =
          ⟨[(.warning, .cmdTimedOut cmd T)], .ok ()⟩) ∧
    (∀ cmd : String, Linux.run_command cmd .hangs = ⟨[], .diverge⟩) ∧
    (∀ cmd : String, MacOS.run_command cmd .hangs = ⟨[], .diverge⟩) :=
  ⟨AIX.run_command_timeout_completes, AIX.run_command_timeout_hangs,
   fun _ => rfl, fun _ => rfl⟩

/-- C3: the CPU alert decision is a pure strict greater-than comparison: a
warning-level CPU alert appears in the `cpu_memory_stats` log iff the
observed value exceeds the configured limit strictly; in particular 95
against limit 90 alerts and 90 against limit 90 does not. -/
theorem C3_alert_strict_greater_than :
    (∀ (cfg : Linux.Config) (env : Linux.Env) (w : ℚ),
        ((LogLevel.warning, LogMsg.alertCpuHigh w) ∈
            (Linux.cpu_memory_stats cfg env).logs ↔
          w = env.cpuPercent ∧ env.cpuPercent > cfg.cpuAlertThreshold)) ∧
    (LogLevel.warning, LogMsg.alertCpuHigh 95) ∈
        (Linux.cpu_memory_stats Linux.defaults (Linux.testEnv 95)).logs ∧
    (LogLevel.warning, LogMsg.alertCpuHigh 90) ∉
        (Linux.cpu_memory_stats Linux.defaults (Linux.testEnv 90)).logs :=
  ⟨Linux.cpu_alert_mem_iff, by decide, by decide⟩

/-- C4 (counterexample): the claim says a missing command is always logged
at warning level and TimedOut/ExecutionFailed at error level.  But the macOS
`nfsstat` probe has no availability pre-check: a missing `nfsstat` (shell
exit 127) is logged at error level through the generic failure path — the
cycle's log holds an error entry and no warning entry; and the AIX timeout
outcome is logged at warning level, not error level. -/
theorem C4_unavailable_error_level_counterexample :
    MacOS.filesystem_nfs_stats MacOS.testEnvNoNfsstat =
      ⟨[(.info, .text "Collecting filesystem and NFS stats..."),
        (.info, .text ("ok".trim)),
        (.error, .cmdFailedStderr "nfsstat" "sh: nfsstat: command not found"),
        (.info, .noneValue)], .ok ()⟩ ∧
    AIX.run_command "errpt -a | head -n 20" 60 CmdBehavior.hangs =
      ⟨[(.warning, .cmdTimedOut "errpt -a | head -n 20" 60)], .ok ()⟩ :=
  ⟨rfl, rfl⟩

/-- C4 (amended): a missing command is logged at warning level only where
the code pre-checks availability: the Linux `nfs_stats` probe checks
`shutil.which("nfsstat")` and, when absent, logs a single warning-level note
and raises no alert (its log is exactly the header and the warning);
execution failure is logged at error level with the command and exit code;
the AIX timed-out outcome is logged at warning level with the command and
timeout. -/
theorem C4_unavailable_warning_prechecked :
    (∀ env : Linux.Env, env.which "nfsstat" = false →
        Linux.nfs_stats env =
          ⟨[(.info, .text "NFS Stats:"), (.warning, .nfsstatNotFound)], .ok ()⟩) ∧
    (∀ (cmd : String) (t c : Nat) (out err : String),
        Linux.run_command cmd (.completes t (c + 1) out err) =
          ⟨[(.error, .cmdFailed cmd (c + 1))], .ok ()⟩) ∧
    (∀ (cmd : String) (T : Nat),
        AIX.run_command cmd T .hangs =
          ⟨[(.warning, .cmdTimedOut cmd T)], .ok ()⟩) := by
  refine ⟨?_, Linux.run_command_nonzero, AIX.run_command_timeout_hangs⟩
  intro env hw
  unfold Linux.nfs_stats
  rw [hw]
  rfl

/-- Witness for C4 (amended) at a host that lacks `nfsstat`. -/
theorem C4_unavailable_warning_prechecked_witness :
    Linux.envAllFail.which "nfsstat" = false ∧
    Linux.nfs_stats Linux.envAllFail =
      ⟨[(.info, .text "NFS Stats:"), (.warning, .nfsstatNotFound)], .ok ()⟩ :=
  ⟨rfl, C4_unavailable_warning_prechecked.1 Linux.envAllFail rfl⟩

/-- C5 (counterexample): the claim says the one-shot system information
probe runs exactly once per program run, outside the timed loop.  But
Perfmon_macos.py calls `system_info()` inside its loop body: a two-cycle
macOS run calls it twice. -/
theorem C5_macos_system_info_in_loop_counterexample :
    (macosMainTrace 2).count ProbeCall.systemInfo = 2 := by decide

/-- C5 (amended): the Linux and AIX scripts run `system_info` exactly once
per program run, as the first call, before and outside the timed loop (it
never occurs in the loop's trace); the macOS script instead runs it inside
the loop, once per cycle. -/
theorem C5_system_info_once_linux_aix (n : Nat) :
    (linuxMainTrace n).count ProbeCall.systemInfo = 1 ∧
    (aixMainTrace n).count ProbeCall.systemInfo = 1 ∧
    ProbeCall.systemInfo ∉ loopTrace linuxCycleCalls n ∧
    ProbeCall.systemInfo ∉ loopTrace aixCycleCalls n ∧
    (macosMainTrace n).count ProbeCall.systemInfo = n := by
  have hcl : linuxCycleCalls.count ProbeCall.systemInfo = 0 := by decide
  have hca : aixCycleCalls.count ProbeCall.systemInfo = 0 := by decide
  have hcm : macosCycleCalls.count ProbeCall.systemInfo = 1 := by decide
  have hl := loopTrace_count linuxCycleCalls ProbeCall.systemInfo n
  have ha := loopTrace_count aixCycleCalls ProbeCall.systemInfo n
  have hm := loopTrace_count macosCycleCalls ProbeCall.systemInfo n
  rw [hcl, Nat.mul_zero] at hl
  rw [hca, Nat.mul_zero] at ha
  rw [hcm, Nat.mul_one] at hm
  refine ⟨?_, ?_, ?_, ?_, ?_⟩
  · simp [linuxMainTrace, List.count_cons, hl]
  · simp [aixMainTrace, List.count_cons, ha]
  · exact List.count_eq_zero.mp hl
  · exact List.count_eq_zero.mp ha
  · exact hm

/-- C6: in the AIX cycle, every trace reachable by the fork/join step system
has all concurrent-thread events (disk and network) settled before the first
sequential probe event, and the sequential events then occur one at a time
in registration order: after its maximal concurrent prefix the completed
trace is exactly `seq 0, …, seq (sT-1)`. -/
theorem C6_concurrent_before_sequential (dT nT sT : Nat) (tr : List AixEvent)
    (h : AixCycleReach dT nT sT ⟨dT, nT, sT, tr⟩) :
    concThenSeqChk sT tr = true := by
  obtain ⟨c, htr, hconc, _⟩ := aixReach_inv h
  have htr2 : tr = c ++ (List.range sT).map AixEvent.seq := htr
  rw [htr2]
  simp only [concThenSeqChk]
  rw [dropWhile_conc_append c hconc sT]
  simp

/-- Witness for C6: a complete concrete cycle with one disk event, one
network event and two sequential probes. -/
theorem C6_concurrent_before_sequential_witness :
    concThenSeqChk 2
      [AixEvent.disk, AixEvent.network, AixEvent.seq 0, AixEvent.seq 1] = true := by
  apply C6_concurrent_before_sequential 1 1 2
  have s1 : AixCycleStep 1 1 2 ⟨0, 0, 0, []⟩ ⟨1, 0, 0, [AixEvent.disk]⟩ :=
    AixCycleStep.disk 0 0 0 [] (by omega)
  have s2 : AixCycleStep 1 1 2 ⟨1, 0, 0, [AixEvent.disk]⟩
      ⟨1, 1, 0, [AixEvent.disk, AixEvent.network]⟩ :=
    AixCycleStep.network 1 0 0 [AixEvent.disk] (by omega)
  have s3 : AixCycleStep 1 1 2 ⟨1, 1, 0, [AixEvent.disk, AixEvent.network]⟩
      ⟨1, 1, 1, [AixEvent.disk, AixEvent.network, AixEvent.seq 0]⟩ :=
    AixCycleStep.seqProbe 1 1 0 [AixEvent.disk, AixEvent.network] rfl rfl (by omega)
  have s4 : AixCycleStep 1 1 2
      ⟨1, 1, 1, [AixEvent.disk, AixEvent.network, AixEvent.seq 0]⟩
      ⟨1, 1, 2, [AixEvent.disk, AixEvent.network, AixEvent.seq 0, AixEvent.seq 1]⟩ :=
    AixCycleStep.seqProbe 1 1 1 [AixEvent.disk, AixEvent.network, AixEvent.seq 0]
      rfl rfl (by omega)
  exact Relation.ReflTransGen.tail
    (Relation.ReflTransGen.tail
      (Relation.ReflTransGen.tail
        (Relation.ReflTransGen.tail Relation.ReflTransGen.refl s1) s2) s3) s4

/-- C7 (counterexample): the claim says a shutdown signal received
mid-cycle never aborts the in-flight cycle.  But the registered
`signal_handler` calls `exit(1)` at once: with a signal delivered after the
first of two probes, the second probe never runs and the process terminates
with status 1 from inside the cycle. -/
theorem C7_shutdown_aborts_cycle_counterexample :
    runCycleUnderSignal demoProbes (some (1, 15)) =
      ⟨[(.info, .text "probe A"), (.info, .receivedSignal 15),
        (.info, .text "Cleaning up resources before exiting.")],
       .exc (.systemExit 1)⟩ := rfl

/-- C7 (amended): a shutdown signal received mid-cycle aborts the in-flight
cycle immediately: the handler logs the signal, runs `cleanup`, and exits
with status 1; exactly the probes already finished contribute to the log and
the probes not yet started never run. -/
theorem C7_shutdown_exits_immediately (probes : List (PyResult Unit))
    (k s : Nat) (hk : k < probes.length) (hok : allOkProbes probes) :
    runCycleUnderSignal probes (some (k, s)) =
      ⟨(pyAll (probes.take k)).logs ++
        [(.info, .receivedSignal s),
         (.info, .text "Cleaning up resources before exiting.")],
       .exc (.systemExit 1)⟩ :=
  runCycleUnderSignal_aborts probes k s hk hok

/-- Witness for C7 (amended): signal 15 after the first of two probes. -/
theorem C7_shutdown_exits_immediately_witness :
    1 < demoProbes.length ∧ allOkProbes demoProbes ∧
    runCycleUnderSignal demoProbes (some (1, 15)) =
      ⟨(pyAll (demoProbes.take 1)).logs ++
        [(.info, .receivedSignal 15),
         (.info, .text "Cleaning up resources before exiting.")],
       .exc (.systemExit 1)⟩ := by
  have hok : allOkProbes demoProbes := by
    intro r hr
    fin_cases hr <;> rfl
  exact ⟨by decide, hok,
    C7_shutdown_exits_immediately demoProbes 1 15 (by decide) hok⟩

/-- C8: with cycle bodies abstracted as instantaneous, the scheduler loop
runs `⌈D / I⌉` cycles, which lies between `⌊D / I⌋` and `⌊D / I⌋ + 1` —
within ±1 of the claimed `⌊D / I⌋ + 1` — and terminates (`schedLoop` is a
total function); and once a shutdown signal is received the loop ends at
once (the handler exits the process), hence well within `I` plus the
largest probe timeout. -/
theorem C8_scheduler_cycle_count (D I : Nat) (hI : 0 < I) :
    (schedLoop I D 0 = (D + (I - 1)) / I ∧
     D / I ≤ schedLoop I D 0 ∧ schedLoop I D 0 ≤ D / I + 1) ∧
    (∀ (probes : List (PyResult Unit)) (k s : Nat), k < probes.length →
        allOkProbes probes →
        (runCycleUnderSignal probes (some (k, s))).out = .exc (.systemExit 1)) := by
  refine ⟨⟨schedLoop_count I D hI, schedLoop_bounds I D hI⟩, ?_⟩
  intro probes k s hk hok
  rw [runCycleUnderSignal_aborts probes k s hk hok]

/-- Witness for C8 at the Linux configuration D = 60, I = 10. -/
theorem C8_scheduler_cycle_count_witness :
    0 < 10 ∧ schedLoop 10 60 0 = (60 + (10 - 1)) / 10 ∧
    60 / 10 ≤ schedLoop 10 60 0 ∧ schedLoop 10 60 0 ≤ 60 / 10 + 1 ∧
    (runCycleUnderSignal demoProbes (some (0, 2))).out = .exc (.systemExit 1) := by
  obtain ⟨⟨h1, h2, h3⟩, h4⟩ := C8_scheduler_cycle_count 60 10 (by decide)
  have hok : allOkProbes demoProbes := by
    intro r hr
    fin_cases hr <;> rfl
  exact ⟨by decide, h1, h2, h3, h4 demoProbes 0 2 (by decide) hok⟩

/-- C9: the macOS `run_command` is total over command outcomes: exit 0
returns the stripped stdout with no logging; any non-zero exit logs the
command's stderr at error level and returns `None`; no subprocess exception
reaches the callers, whose `logging.info(run_command(c))` pattern then logs
the `None` value. -/
theorem C9_macos_run_command_total :
    (∀ (cmd : String) (t : Nat) (out err : String),
        MacOS.run_command cmd (.completes t 0 out err) =
          ⟨[], .ok (some out.trim)⟩) ∧
    (∀ (cmd : String) (t c : Nat) (out err : String),
        MacOS.run_command cmd (.completes t (c + 1) out err) =
          ⟨[(.error, .cmdFailedStderr cmd err)], .ok none⟩) ∧
    (∀ (cmd : String) (t c : Nat) (out err : String),
        MacOS.logCmd cmd (.completes t (c + 1) out err) =
          ⟨[(.error, .cmdFailedStderr cmd err), (.info, .noneValue)], .ok ()⟩) :=
  ⟨MacOS.run_command_mac_exit_zero, MacOS.run_command_mac_nonzero, MacOS.logCmd_failure⟩

/-- C10: in the Linux process pass, a high-CPU warning for a process appears
in the `process_stats` log iff that process's sampled cpu_percent is
strictly greater than the literal 50, and the result does not depend on the
configured CPU alert threshold at all. -/
theorem C10_high_cpu_warning_iff :
    (∀ (cfg cfg2 : Linux.Config) (env : Linux.Env),
        Linux.process_stats cfg env = Linux.process_stats cfg2 env) ∧
    (∀ (cfg : Linux.Config) (env : Linux.Env) (p : Nat) (n : String) (c m : ℚ),
        ((LogLevel.warning, LogMsg.highCpuProcess p n c m) ∈
            (Linux.process_stats cfg env).logs ↔
          Linux.ProcItem.entry p n c m ∈ env.procs ∧ c > 50)) :=
  ⟨Linux.process_stats_indep, Linux.high_cpu_mem_iff⟩
